import Mathlib

/-
Shallow embedding of the x402 "exact" scheme facilitator core
(src/unnamed/part_000: the exported async functions `verify` and `settle`).

Modelling choices:
* Machine/chain interaction is abstracted into an explicit environment `Env`
  of oracle functions (current time, network-id lookup, chain config lookup,
  contract version read, address checksumming, typed-data signature
  verification, ERC-20 balance read, transaction submission, receipt wait).
  Each oracle is `Except`-valued: `Except.error` models the collaborator
  throwing a JavaScript exception.
* The TypeScript functions are `async` and may throw; we model each as a
  total Lean function returning `Except ChainError Response × List Event`.
  The first component is `Except.error e` exactly when the TypeScript code
  would let an exception escape (the source wraps only the resolution block
  lines 70-85 in try/catch); the second component is the ordered trace of
  external-collaborator invocations actually performed (used to state
  check-ordering and "never touches the chain" properties).
* Numeric string fields (`value`, `validAfter`, `validBefore`) are modelled
  as `Nat`; the source only ever converts them with `BigInt(...)` and
  compares them, so the embedding performs the same comparisons directly.
* Addresses, signatures, nonces, reason codes are `String`s, as in the wire
  format of the source.
-/

namespace X402

/-- Error value standing for a thrown JavaScript exception from an external
collaborator (viem, RPC, config lookup). -/
inductive ChainError where
  | ex : ChainError
deriving DecidableEq, Repr

/-- External-collaborator invocations observable in a run, in call order.
`getVersion` is the Chain Metadata Resolver read, `verifySig` the
cryptographic typed-data verification, `readBalance` the Balance Oracle
read, `submitTx` the Chain Submitter write, `awaitReceipt` the receipt
confirmation wait. -/
inductive Event where
  | getVersion : Event
  | verifySig : Event
  | readBalance : Event
  | submitTx : Event
  | awaitReceipt : Event
deriving DecidableEq, Repr

/-- EIP-3009-style transfer authorization (source: `payload.payload.authorization`). -/
structure Authorization where
  from_ : String
  to_ : String
  value : Nat
  validAfter : Nat
  validBefore : Nat
  nonce : String
deriving DecidableEq, Repr

/-- The signed payload body: authorization plus signature. -/
structure ExactPayload where
  authorization : Authorization
  signature : String
deriving DecidableEq, Repr

/-- PaymentPayload as consumed by `verify`/`settle`. -/
structure PaymentPayload where
  scheme : String
  network : String
  payload : ExactPayload
deriving DecidableEq, Repr

/-- Optional `extra` block of the requirements (token name / version overrides). -/
structure PaymentExtra where
  name : Option String
  version : Option String
deriving DecidableEq, Repr

/-- PaymentRequirements as consumed by `verify`/`settle`. -/
structure PaymentRequirements where
  scheme : String
  network : String
  asset : String
  payTo : String
  maxAmountRequired : Nat
  extra : Option PaymentExtra
deriving DecidableEq, Repr

/-- VerifyResponse shape returned by `verify` (source returns object literals
with exactly these fields). -/
structure VerifyResponse where
  isValid : Bool
  invalidReason : Option String
  payer : String
deriving DecidableEq, Repr

/-- SettleResponse shape returned by `settle`. -/
structure SettleResponse where
  success : Bool
  network : String
  transaction : String
  errorReason : Option String
  payer : String
deriving DecidableEq, Repr

/-- EIP-712 domain of the permit typed data (source lines 90-95). -/
structure TypedDomain where
  name : String
  version : String
  chainId : Nat
  verifyingContract : String
deriving DecidableEq, Repr

/-- EIP-712 message of the permit typed data (source lines 96-103). -/
structure TypedMessage where
  from_ : String
  to_ : String
  value : Nat
  validAfter : Nat
  validBefore : Nat
  nonce : String
deriving DecidableEq, Repr

/-- Arguments the source passes to `wallet.writeContract` (lines 231-245). -/
structure SubmitArgs where
  address : String
  functionName : String
  from_ : String
  to_ : String
  value : Nat
  validAfter : Nat
  validBefore : Nat
  nonce : String
  signature : String
deriving DecidableEq, Repr

/-- Oracle environment: one deterministic snapshot of every external
collaborator the source calls. `Except.error` models a thrown exception.
`getNetworkId`, `usdcName` (the `config[chainId].usdcName` lookup),
`getVersion` and `getERC20Balance` live outside src/ and are the spec's
Chain Metadata Resolver and Balance Oracle; `getAddress` and
`verifyTypedData` are the viem primitives; `writeContract` and
`waitForTransactionReceipt` are the Chain Submitter. -/
structure Env where
  now : Nat
  getNetworkId : String → Except ChainError Nat
  usdcName : String → Except ChainError String
  getVersion : Except ChainError String
  getAddress : String → Except ChainError String
  verifyTypedData : String → TypedDomain → TypedMessage → String → Except ChainError Bool
  getERC20Balance : String → String → Except ChainError Nat
  writeContract : SubmitArgs → Except ChainError String
  waitForTransactionReceipt : String → Except ChainError String

/-- Modelled from the spec: the supported scheme identifier, imported in the
source from `../../exact` (not under src/). The spec and the example
facilitator's `/supported` endpoint fix it to the string "exact". -/
def SCHEME : String := "exact"

/-- The interpolated rejection message the source builds on a scheme
mismatch (line 61). -/
def incompatibleSchemeReason (payloadScheme requirementsScheme : String) : String :=
  "Incompatible payload scheme. payload: " ++ payloadScheme ++
    ", paymentRequirements: " ++ requirementsScheme ++ ", supported: " ++ SCHEME

/-- Name/chainId/token-address/version tuple resolved by source lines 66-85. -/
structure ResolvedMeta where
  name : String
  chainId : Nat
  erc20Address : String
  version : String
deriving DecidableEq, Repr

/-- The resolution block, source lines 70-74 (inside the try):
`chainId = getNetworkId(payload.network)`,
`name = paymentRequirements.extra?.name ?? config[chainId.toString()].usdcName`,
`erc20Address = paymentRequirements.asset as Address` (a bare type cast — no
runtime validation), and
`version = paymentRequirements.extra?.version ?? (await getVersion(client))`.
The trace records the Chain Metadata Resolver call when it happens. -/
def resolveMeta (env : Env) (payload : PaymentPayload)
    (paymentRequirements : PaymentRequirements) :
    Except ChainError ResolvedMeta × List Event :=
  match env.getNetworkId payload.network with
  | .error e => (.error e, [])
  | .ok chainId =>
    match (match paymentRequirements.extra.bind PaymentExtra.name with
           | some n => Except.ok n
           | none => env.usdcName (toString chainId)) with
    | .error e => (.error e, [])
    | .ok name =>
      let erc20Address := paymentRequirements.asset
      match paymentRequirements.extra.bind PaymentExtra.version with
      | some v => (.ok ⟨name, chainId, erc20Address, v⟩, [])
      | none =>
        match env.getVersion with
        | .error e => (.error e, [Event.getVersion])
        | .ok v => (.ok ⟨name, chainId, erc20Address, v⟩, [Event.getVersion])

/-- EIP-712 domain built at source lines 90-95. -/
def permitDomain (meta : ResolvedMeta) : TypedDomain :=
  ⟨meta.name, meta.version, meta.chainId, meta.erc20Address⟩

/-- EIP-712 message built at source lines 96-103. -/
def permitMessage (payload : PaymentPayload) : TypedMessage :=
  ⟨payload.payload.authorization.from_, payload.payload.authorization.to_,
   payload.payload.authorization.value, payload.payload.authorization.validAfter,
   payload.payload.authorization.validBefore, payload.payload.authorization.nonce⟩

/-- Source lines 86-195: the checks performed after successful resolution —
signature verification (line 109, not wrapped in try/catch), recipient
match (line 127, `getAddress` on both sides may throw), expiry
(line 142: `validBefore < now + 6`), not-yet-valid (line 155:
`validAfter > now`), balance read (line 167, may throw), solvency
(line 172) and amount sufficiency (line 180), each returning the object
literal the source returns on that branch. -/
def verifyResolved (env : Env) (payload : PaymentPayload)
    (paymentRequirements : PaymentRequirements) (meta : ResolvedMeta) :
    Except ChainError VerifyResponse × List Event :=
  match env.verifyTypedData payload.payload.authorization.from_ (permitDomain meta)
      (permitMessage payload) payload.payload.signature with
  | .error e => (.error e, [Event.verifySig])
  | .ok recoveredAddress =>
    if !recoveredAddress then
      (.ok { isValid := false, invalidReason := some "invalid_scheme",
             payer := payload.payload.authorization.from_ }, [Event.verifySig])
    else
      match env.getAddress payload.payload.authorization.to_ with
      | .error e => (.error e, [Event.verifySig])
      | .ok toAddr =>
        match env.getAddress paymentRequirements.payTo with
        | .error e => (.error e, [Event.verifySig])
        | .ok payToAddr =>
          if toAddr ≠ payToAddr then
            (.ok { isValid := false, invalidReason := some "invalid_scheme",
                   payer := payload.payload.authorization.from_ }, [Event.verifySig])
          else if payload.payload.authorization.validBefore < env.now + 6 then
            (.ok { isValid := false, invalidReason := some "invalid_scheme",
                   payer := payload.payload.authorization.from_ }, [Event.verifySig])
          else if payload.payload.authorization.validAfter > env.now then
            (.ok { isValid := false, invalidReason := some "invalid_scheme",
                   payer := payload.payload.authorization.from_ }, [Event.verifySig])
          else
            match env.getERC20Balance meta.erc20Address
                payload.payload.authorization.from_ with
            | .error e => (.error e, [Event.verifySig, Event.readBalance])
            | .ok balance =>
              if balance < paymentRequirements.maxAmountRequired then
                (.ok { isValid := false, invalidReason := some "insufficient_funds",
                       payer := payload.payload.authorization.from_ },
                 [Event.verifySig, Event.readBalance])
              else if payload.payload.authorization.value <
                  paymentRequirements.maxAmountRequired then
                (.ok { isValid := false, invalidReason := some "invalid_scheme",
                       payer := payload.payload.authorization.from_ },
                 [Event.verifySig, Event.readBalance])
              else
                (.ok { isValid := true, invalidReason := none,
                       payer := payload.payload.authorization.from_ },
                 [Event.verifySig, Event.readBalance])

/-- Source lines 35-196. The scheme gate is line 58
(`payload.scheme !== SCHEME || paymentRequirements.scheme !== SCHEME`); a
resolution exception is caught and mapped to `invalid_network`
(lines 75-85); everything after resolution is `verifyResolved`. -/
def verify (env : Env) (payload : PaymentPayload)
    (paymentRequirements : PaymentRequirements) :
    Except ChainError VerifyResponse × List Event :=
  if payload.scheme ≠ SCHEME ∨ paymentRequirements.scheme ≠ SCHEME then
    (.ok { isValid := false,
           invalidReason := some (incompatibleSchemeReason payload.scheme
             paymentRequirements.scheme),
           payer := payload.payload.authorization.from_ }, [])
  else
    let resolved := resolveMeta env payload paymentRequirements
    match resolved.1 with
    | .error _ =>
        (.ok { isValid := false, invalidReason := some "invalid_network",
               payer := payload.payload.authorization.from_ }, resolved.2)
    | .ok meta =>
        let rest := verifyResolved env payload paymentRequirements meta
        (rest.1, resolved.2 ++ rest.2)

/-- The source's re-mapping of a failed pre-settle verification reason onto a
settlement error code (line 226): every validator reason is mapped to the
single code the source writes there. -/
def settleErrorOf : Option String → String := fun _ => "invalid_scheme"

/-- Source lines 209-269: re-verify, short-circuit without touching the chain
when invalid (lines 217-229), otherwise submit `transferWithAuthorization`
(lines 231-245), await the receipt (line 247) and translate its status
(lines 249-268). Neither chain call is wrapped in try/catch, so collaborator
exceptions propagate. -/
def settle (env : Env) (paymentPayload : PaymentPayload)
    (paymentRequirements : PaymentRequirements) :
    Except ChainError SettleResponse × List Event :=
  let run := verify env paymentPayload paymentRequirements
  match run.1 with
  | .error e => (.error e, run.2)
  | .ok valid =>
    if !valid.isValid then
      (.ok { success := false,
             network := paymentPayload.network,
             transaction := "",
             errorReason := some (settleErrorOf valid.invalidReason),
             payer := paymentPayload.payload.authorization.from_ }, run.2)
    else
      match env.writeContract
          { address := paymentRequirements.asset,
            functionName := "transferWithAuthorization",
            from_ := paymentPayload.payload.authorization.from_,
            to_ := paymentPayload.payload.authorization.to_,
            value := paymentPayload.payload.authorization.value,
            validAfter := paymentPayload.payload.authorization.validAfter,
            validBefore := paymentPayload.payload.authorization.validBefore,
            nonce := paymentPayload.payload.authorization.nonce,
            signature := paymentPayload.payload.signature } with
      | .error e => (.error e, run.2 ++ [Event.submitTx])
      | .ok tx =>
        match env.waitForTransactionReceipt tx with
        | .error e => (.error e, run.2 ++ [Event.submitTx, Event.awaitReceipt])
        | .ok status =>
          if status ≠ "success" then
            (.ok { success := false,
                   network := paymentPayload.network,
                   transaction := tx,
                   errorReason := some "invalid_scheme",
                   payer := paymentPayload.payload.authorization.from_ },
             run.2 ++ [Event.submitTx, Event.awaitReceipt])
          else
            (.ok { success := true,
                   network := paymentPayload.network,
                   transaction := tx,
                   errorReason := none,
                   payer := paymentPayload.payload.authorization.from_ },
             run.2 ++ [Event.submitTx, Event.awaitReceipt])

/-- Reference oracle snapshot used by concrete instances: time 1000, one
known network "base-sepolia" with chain id 84532, config name "USDC",
contract version "2", identity address checksumming, an always-valid
signature primitive, payer balance 5000, submission hash "0xtxhash" and a
successful receipt. -/
def goodEnv : Env where
  now := 1000
  getNetworkId := fun network =>
    if network = "base-sepolia" then Except.ok 84532 else Except.error ChainError.ex
  usdcName := fun chainId =>
    if chainId = "84532" then Except.ok "USDC" else Except.error ChainError.ex
  getVersion := Except.ok "2"
  getAddress := fun a => Except.ok a
  verifyTypedData := fun _ _ _ _ => Except.ok true
  getERC20Balance := fun _ _ => Except.ok 5000
  writeContract := fun _ => Except.ok "0xtxhash"
  waitForTransactionReceipt := fun _ => Except.ok "success"

/-- A well-formed authorization matching `rW` under `goodEnv`. -/
def authW : Authorization :=
  { from_ := "0xpayer", to_ := "0xrecipient", value := 1000,
    validAfter := 0, validBefore := 2000, nonce := "0xnonce" }

/-- A well-formed payload for the supported scheme on the known network. -/
def pW : PaymentPayload :=
  { scheme := "exact", network := "base-sepolia",
    payload := { authorization := authW, signature := "0xsig" } }

/-- Requirements satisfied by `pW` under `goodEnv`; `extra` supplies both the
token name and version, so the Chain Metadata Resolver is not consulted. -/
def rW : PaymentRequirements :=
  { scheme := "exact", network := "base-sepolia", asset := "0xusdc",
    payTo := "0xrecipient", maxAmountRequired := 1000,
    extra := some { name := some "USDC", version := some "2" } }

/-- The resolution step performs at most the Chain Metadata Resolver call. -/
theorem resolveMeta_snd (env : Env) (p : PaymentPayload) (r : PaymentRequirements) :
    (resolveMeta env p r).2 = [] ∨ (resolveMeta env p r).2 = [Event.getVersion] := by
  unfold resolveMeta
  repeat' split
  all_goals first | (left ; rfl) | (right ; rfl)

/-- The post-resolution checks always perform the signature verification
first, and at most one Balance Oracle read after it. -/
theorem verifyResolved_snd (env : Env) (p : PaymentPayload) (r : PaymentRequirements)
    (meta : ResolvedMeta) :
    (verifyResolved env p r meta).2 = [Event.verifySig] ∨
      (verifyResolved env p r meta).2 = [Event.verifySig, Event.readBalance] := by
  unfold verifyResolved
  repeat' split
  all_goals first | (left ; rfl) | (right ; rfl)

/-- The external-call trace of `verify` is always an ordered subsequence of
Chain Metadata Resolver read, signature verification, Balance Oracle read. -/
theorem verify_snd_sublist (env : Env) (p : PaymentPayload) (r : PaymentRequirements) :
    List.Sublist (verify env p r).2 [Event.getVersion, Event.verifySig, Event.readBalance] := by
  unfold verify
  split
  · simp
  · dsimp only
    split
    · rcases resolveMeta_snd env p r with h | h <;> simp [h]
    · rename_i meta heq
      rcases resolveMeta_snd env p r with h | h <;>
        rcases verifyResolved_snd env p r meta with h2 | h2 <;>
        simp [h, h2]

/-- Every successful return of the post-resolution checks carries
`payer = authorization.from`. -/
theorem verifyResolved_payer (env : Env) (p : PaymentPayload) (r : PaymentRequirements)
    (meta : ResolvedMeta) (resp : VerifyResponse)
    (h : (verifyResolved env p r meta).1 = Except.ok resp) :
    resp.payer = p.payload.authorization.from_ := by
  unfold verifyResolved at h
  repeat' split at h
  all_goals try simp_all
  all_goals (subst h ; rfl)

/-- Every response `verify` returns carries `payer = authorization.from`. -/
theorem verify_payer (env : Env) (p : PaymentPayload) (r : PaymentRequirements)
    (resp : VerifyResponse) (h : (verify env p r).1 = Except.ok resp) :
    resp.payer = p.payload.authorization.from_ := by
  unfold verify at h
  split at h
  · simp at h
    subst h
    rfl
  · dsimp only at h
    split at h
    · simp at h
      subst h
      rfl
    · exact verifyResolved_payer env p r _ resp h

/-- Every response `settle` returns carries `payer = authorization.from`. -/
theorem settle_payer (env : Env) (p : PaymentPayload) (r : PaymentRequirements)
    (resp : SettleResponse) (h : (settle env p r).1 = Except.ok resp) :
    resp.payer = p.payload.authorization.from_ := by
  unfold settle at h
  dsimp only at h
  repeat' split at h
  all_goals try simp_all
  all_goals (subst h ; rfl)

/-- When both schemes match and the resolution block throws, `verify` catches
the exception and rejects with `invalid_network`, having made no further
external calls. -/
theorem verify_resolveError (env : Env) (p : PaymentPayload) (r : PaymentRequirements)
    (e : ChainError) (hp : p.scheme = SCHEME) (hr : r.scheme = SCHEME)
    (h : (resolveMeta env p r).1 = Except.error e) :
    (verify env p r).1 =
      Except.ok { isValid := false, invalidReason := some "invalid_network",
                  payer := p.payload.authorization.from_ }
      ∧ (verify env p r).2 = (resolveMeta env p r).2 := by
  unfold verify
  rw [if_neg (by simp [hp, hr])]
  dsimp only
  rw [h]
  exact ⟨rfl, rfl⟩

/-- When both schemes match and resolution succeeds, `verify` is the
post-resolution run, its trace appended to the resolution trace. -/
theorem verify_resolveOk (env : Env) (p : PaymentPayload) (r : PaymentRequirements)
    (meta : ResolvedMeta) (hp : p.scheme = SCHEME) (hr : r.scheme = SCHEME)
    (h : (resolveMeta env p r).1 = Except.ok meta) :
    verify env p r = ((verifyResolved env p r meta).1,
      (resolveMeta env p r).2 ++ (verifyResolved env p r meta).2) := by
  unfold verify
  rw [if_neg (by simp [hp, hr])]
  dsimp only
  rw [h]

/-- A Balance Oracle read inside the post-resolution run implies that the
signature was verified, the recipient addresses resolved and matched, and
both temporal checks passed. -/
theorem verifyResolved_mem_readBalance (env : Env) (p : PaymentPayload)
    (r : PaymentRequirements) (meta : ResolvedMeta)
    (h : Event.readBalance ∈ (verifyResolved env p r meta).2) :
    env.verifyTypedData p.payload.authorization.from_ (permitDomain meta) (permitMessage p)
        p.payload.signature = Except.ok true
    ∧ (∃ a, env.getAddress p.payload.authorization.to_ = Except.ok a
        ∧ env.getAddress r.payTo = Except.ok a)
    ∧ env.now + 6 ≤ p.payload.authorization.validBefore
    ∧ p.payload.authorization.validAfter ≤ env.now := by
  unfold verifyResolved at h
  repeat' split at h
  all_goals simp_all


/-- On a scheme mismatch `verify` returns immediately with the interpolated
message and performs no external call at all. -/
theorem verify_scheme_mismatch (env : Env) (p : PaymentPayload) (r : PaymentRequirements)
    (hs : p.scheme ≠ SCHEME ∨ r.scheme ≠ SCHEME) :
    verify env p r =
      (Except.ok { isValid := false,
                   invalidReason := some (incompatibleSchemeReason p.scheme r.scheme),
                   payer := p.payload.authorization.from_ }, []) := by
  unfold verify
  rw [if_pos hs]

/-- All checks preceding the solvency (balance) check pass: both schemes
match, resolution succeeds, the signature verifies for `authorization.from`
over the resolved domain, the checksummed recipient equals `payTo`, and
both temporal bounds hold with the 6-second margin. -/
def preSolvencyOk (env : Env) (p : PaymentPayload) (r : PaymentRequirements) : Prop :=
  p.scheme = SCHEME ∧ r.scheme = SCHEME ∧
  ∃ meta, (resolveMeta env p r).1 = Except.ok meta ∧
    env.verifyTypedData p.payload.authorization.from_ (permitDomain meta) (permitMessage p)
      p.payload.signature = Except.ok true ∧
    (∃ a, env.getAddress p.payload.authorization.to_ = Except.ok a
        ∧ env.getAddress r.payTo = Except.ok a) ∧
    env.now + 6 ≤ p.payload.authorization.validBefore ∧
    p.payload.authorization.validAfter ≤ env.now

/-- C2: `verify` evaluates its checks in the order scheme compatibility,
network/contract resolution, signature verification, recipient match,
temporal validity, solvency, amount sufficiency, short-circuiting on the
first failure: the external-call trace is always an ordered subsequence of
metadata read, then signature verification, then balance read; the
signature primitive runs only after the scheme gate and a successful
resolution; and the Balance Oracle is consulted only when every check
preceding solvency has passed — so an input failing an earlier check never
reaches the Balance Oracle, and signature verification always precedes any
balance or amount comparison. -/
theorem verify_check_order (env : Env) (p : PaymentPayload) (r : PaymentRequirements) :
    List.Sublist (verify env p r).2 [Event.getVersion, Event.verifySig, Event.readBalance]
    ∧ (Event.verifySig ∈ (verify env p r).2 →
        p.scheme = SCHEME ∧ r.scheme = SCHEME ∧
        ∃ meta, (resolveMeta env p r).1 = Except.ok meta)
    ∧ (Event.readBalance ∈ (verify env p r).2 →
        Event.verifySig ∈ (verify env p r).2 ∧ preSolvencyOk env p r) := by
  refine ⟨verify_snd_sublist env p r, ?_, ?_⟩ <;>
    by_cases hs : p.scheme ≠ SCHEME ∨ r.scheme ≠ SCHEME
  · rw [verify_scheme_mismatch env p r hs]
    intro hmem
    simp at hmem
  · push_neg at hs
    obtain ⟨hp, hr⟩ := hs
    cases hres : (resolveMeta env p r).1 with
    | error e =>
      intro hmem
      have h2 := (verify_resolveError env p r e hp hr hres).2
      rw [h2] at hmem
      rcases resolveMeta_snd env p r with h | h <;> rw [h] at hmem <;> simp at hmem
    | ok meta =>
      intro hmem2
      exact ⟨hp, hr, meta, rfl⟩
  · rw [verify_scheme_mismatch env p r hs]
    intro hmem
    simp at hmem
  · push_neg at hs
    obtain ⟨hp, hr⟩ := hs
    cases hres : (resolveMeta env p r).1 with
    | error e =>
      intro hmem
      have h2 := (verify_resolveError env p r e hp hr hres).2
      rw [h2] at hmem
      rcases resolveMeta_snd env p r with h | h <;> rw [h] at hmem <;> simp at hmem
    | ok meta =>
      intro hmem
      have hv := verify_resolveOk env p r meta hp hr hres
      rw [hv] at hmem
      simp only [List.mem_append] at hmem
      have hnotrm : Event.readBalance ∉ (resolveMeta env p r).2 := by
        rcases resolveMeta_snd env p r with h | h <;> rw [h] <;> simp
      have hmem2 : Event.readBalance ∈ (verifyResolved env p r meta).2 := by
        rcases hmem with h | h
        · exact absurd h hnotrm
        · exact h
      obtain ⟨h1, h2, h3, h4⟩ := verifyResolved_mem_readBalance env p r meta hmem2
      constructor
      · rw [hv]
        rcases verifyResolved_snd env p r meta with h5 | h5 <;> simp [h5]
      · exact ⟨hp, hr, meta, hres, h1, h2, h3, h4⟩

/-- Authorization already expired relative to `goodEnv.now = 1000`
(`validBefore = now - 1`). -/
def authExpired : Authorization := { authW with validBefore := 999 }

/-- Payload carrying `authExpired`. -/
def pExpired : PaymentPayload :=
  { pW with payload := { pW.payload with authorization := authExpired } }

/-- Authorization with `validBefore = now + 10`, inside the 6-second margin. -/
def authPlus10 : Authorization := { authW with validBefore := 1010 }

/-- Payload carrying `authPlus10`. -/
def pPlus10 : PaymentPayload :=
  { pW with payload := { pW.payload with authorization := authPlus10 } }

/-- Authorization not yet valid (`validAfter = now + 1`). -/
def authNotYet : Authorization := { authW with validAfter := 1001 }

/-- Payload carrying `authNotYet`. -/
def pNotYet : PaymentPayload :=
  { pW with payload := { pW.payload with authorization := authNotYet } }

/-- Authorization whose value is `maxAmountRequired - 1`. -/
def authValue999 : Authorization := { authW with value := 999 }

/-- Payload carrying `authValue999`. -/
def pValue999 : PaymentPayload :=
  { pW with payload := { pW.payload with authorization := authValue999 } }

/-- Payload declaring an unsupported scheme. -/
def pBadScheme : PaymentPayload := { pW with scheme := "permit" }

/-- Requirements with a malformed token contract address. -/
def rBadAsset : PaymentRequirements := { rW with asset := "not-an-address" }

/-- Requirements demanding a different network than `pW` targets. -/
def rDiffNet : PaymentRequirements := { rW with network := "ethereum" }

/-- Like `goodEnv`, but the signature primitive throws when asked to hash a
typed-data domain whose verifying contract is the malformed address —
modelling viem raising a parse failure on a malformed address. -/
def strictSigEnv : Env :=
  { goodEnv with verifyTypedData := fun _ domain _ _ =>
      if domain.verifyingContract = "not-an-address" then Except.error ChainError.ex
      else Except.ok true }

/-- Like `goodEnv`, but the Balance Oracle throws (e.g. an RPC failure). -/
def balThrowEnv : Env :=
  { goodEnv with getERC20Balance := fun _ _ => Except.error ChainError.ex }

/-- Like `goodEnv`, but the Chain Submitter throws on submission. -/
def submitThrowEnv : Env :=
  { goodEnv with writeContract := fun _ => Except.error ChainError.ex }

/-- Like `goodEnv`, but the network-id resolver throws (unknown network). -/
def badNetEnv : Env :=
  { goodEnv with getNetworkId := fun _ => Except.error ChainError.ex }

/-- Like `goodEnv`, but the awaited receipt reports a failed transaction. -/
def revertEnv : Env :=
  { goodEnv with waitForTransactionReceipt := fun _ => Except.ok "reverted" }

/-- C3: every response returned by `verify` and every response returned by
`settle`, on every branch, carries `payer` equal to `authorization.from`
exactly as supplied in the payload. -/
theorem verify_settle_payer_from (env : Env) (p : PaymentPayload) (r : PaymentRequirements) :
    (∀ resp : VerifyResponse, (verify env p r).1 = Except.ok resp →
        resp.payer = p.payload.authorization.from_)
    ∧ (∀ resp : SettleResponse, (settle env p r).1 = Except.ok resp →
        resp.payer = p.payload.authorization.from_) :=
  ⟨fun resp h => verify_payer env p r resp h,
   fun resp h => settle_payer env p r resp h⟩

/-- Witness for C3 at a concrete accepted payload and settled payment. -/
theorem verify_settle_payer_from_witness :
    ({ isValid := true, invalidReason := none, payer := "0xpayer" } : VerifyResponse).payer
        = pW.payload.authorization.from_
    ∧ ({ success := true, network := "base-sepolia", transaction := "0xtxhash",
         errorReason := none, payer := "0xpayer" } : SettleResponse).payer
        = pW.payload.authorization.from_ :=
  ⟨(verify_settle_payer_from goodEnv pW rW).1 _ rfl,
   (verify_settle_payer_from goodEnv pW rW).2 _ rfl⟩

/-- When the pre-settle verification rejects, `settle` returns the source's
invalid-branch response and its trace is exactly the verification trace. -/
theorem settle_invalid_run (env : Env) (p : PaymentPayload) (r : PaymentRequirements)
    (resp : VerifyResponse) (h : (verify env p r).1 = Except.ok resp)
    (hv : resp.isValid = false) :
    settle env p r =
      (Except.ok { success := false, network := p.network, transaction := "",
                   errorReason := some (settleErrorOf resp.invalidReason),
                   payer := p.payload.authorization.from_ }, (verify env p r).2) := by
  unfold settle
  dsimp only
  rw [h]
  simp [hv]

/-- C1: whenever the validator rejects (`isValid = false`), `settle` on the
same inputs never invokes the Chain Submitter — no transaction is written
and no receipt is awaited — and returns `success = false`,
`transaction = ""`, `payer = authorization.from`, and `errorReason` equal
to the validator's rejection reason re-mapped (via `settleErrorOf`) onto a
settlement error code. -/
theorem settle_invalid_no_submit (env : Env) (p : PaymentPayload) (r : PaymentRequirements)
    (resp : VerifyResponse) (h : (verify env p r).1 = Except.ok resp)
    (hv : resp.isValid = false) :
    (settle env p r).1 =
      Except.ok { success := false, network := p.network, transaction := "",
                  errorReason := some (settleErrorOf resp.invalidReason),
                  payer := p.payload.authorization.from_ }
    ∧ Event.submitTx ∉ (settle env p r).2
    ∧ Event.awaitReceipt ∉ (settle env p r).2 := by
  have hrun := settle_invalid_run env p r resp h hv
  have hsub := verify_snd_sublist env p r
  refine ⟨by rw [hrun], ?_, ?_⟩ <;> rw [hrun] <;> intro hx <;>
    have hy := hsub.subset hx <;> simp at hy

/-- Witness for C1: an expired authorization is rejected by `verify`, and
`settle` refuses it without any chain interaction. -/
theorem settle_invalid_no_submit_witness :
    (settle goodEnv pExpired rW).1 =
      Except.ok { success := false, network := "base-sepolia", transaction := "",
                  errorReason := some (settleErrorOf (some "invalid_scheme")),
                  payer := "0xpayer" }
    ∧ Event.submitTx ∉ (settle goodEnv pExpired rW).2
    ∧ Event.awaitReceipt ∉ (settle goodEnv pExpired rW).2 :=
  settle_invalid_no_submit goodEnv pExpired rW
    { isValid := false, invalidReason := some "invalid_scheme", payer := "0xpayer" } rfl rfl

instance {ε α : Type} [DecidableEq ε] [DecidableEq α] : DecidableEq (Except ε α) := fun a b =>
  match a, b with
  | .error x, .error y => decidable_of_iff (x = y) (by simp)
  | .error _, .ok _ => isFalse (by simp)
  | .ok _, .error _ => isFalse (by simp)
  | .ok x, .ok y => decidable_of_iff (x = y) (by simp)

/-- C4 divergence: a payload with scheme "permit" against requirements with
scheme "exact" is rejected with the source's interpolated free-text
message, not with the distinct code `unsupported_scheme`. -/
theorem verify_scheme_mismatch_reason :
    (verify goodEnv pBadScheme rW).1 =
      Except.ok { isValid := false,
                  invalidReason := some (incompatibleSchemeReason "permit" "exact"),
                  payer := "0xpayer" }
    ∧ incompatibleSchemeReason "permit" "exact" =
        "Incompatible payload scheme. payload: permit, paymentRequirements: exact, supported: exact"
    ∧ (verify goodEnv pBadScheme rW).1 ≠
      Except.ok { isValid := false, invalidReason := some "unsupported_scheme",
                  payer := "0xpayer" } :=
  ⟨rfl, rfl, by decide⟩

/-- C6 divergence: with every other check passing under `goodEnv`
(`now = 1000`), `validBefore = now - 1` rejects and `validAfter = now + 1`
rejects — but both with the overloaded code `invalid_scheme`, not with
`authorization_expired` / `authorization_not_yet_valid`; and
`validBefore = now + 10` passes the temporal check and verifies as valid. -/
theorem verify_temporal_reason :
    (verify goodEnv pExpired rW).1 =
      Except.ok { isValid := false, invalidReason := some "invalid_scheme",
                  payer := "0xpayer" }
    ∧ (verify goodEnv pPlus10 rW).1 =
      Except.ok { isValid := true, invalidReason := none, payer := "0xpayer" }
    ∧ (verify goodEnv pNotYet rW).1 =
      Except.ok { isValid := false, invalidReason := some "invalid_scheme",
                  payer := "0xpayer" }
    ∧ (verify goodEnv pExpired rW).1 ≠
      Except.ok { isValid := false, invalidReason := some "authorization_expired",
                  payer := "0xpayer" } :=
  ⟨rfl, rfl, rfl, by decide⟩

/-- C7 divergence: with every other check passing under `goodEnv`
(balance 5000, `maxAmountRequired = 1000`), `value = 999` rejects — but
with the overloaded code `invalid_scheme`, not `amount_too_low` — and
`value = 1000` passes the amount check and verifies as valid. -/
theorem verify_amount_reason :
    (verify goodEnv pValue999 rW).1 =
      Except.ok { isValid := false, invalidReason := some "invalid_scheme",
                  payer := "0xpayer" }
    ∧ (verify goodEnv pW rW).1 =
      Except.ok { isValid := true, invalidReason := none, payer := "0xpayer" }
    ∧ (verify goodEnv pValue999 rW).1 ≠
      Except.ok { isValid := false, invalidReason := some "amount_too_low",
                  payer := "0xpayer" } :=
  ⟨rfl, rfl, by decide⟩

/-- C8 divergence: when the submitted transaction's receipt denotes failure,
`settle` keeps the transaction hash in the response (not empty) and returns
`success = false` — but with errorReason `invalid_scheme`, not the distinct
code `settlement_failed`. The trace confirms submission and receipt wait
happened. -/
theorem settle_receipt_failure_reason :
    (settle revertEnv pW rW).1 =
      Except.ok { success := false, network := "base-sepolia", transaction := "0xtxhash",
                  errorReason := some "invalid_scheme", payer := "0xpayer" }
    ∧ (settle revertEnv pW rW).2 =
        [Event.verifySig, Event.readBalance, Event.submitTx, Event.awaitReceipt]
    ∧ (settle revertEnv pW rW).1 ≠
      Except.ok { success := false, network := "base-sepolia", transaction := "0xtxhash",
                  errorReason := some "settlement_failed", payer := "0xpayer" } :=
  ⟨rfl, rfl, by decide⟩

/-- Whether the resolution block throws does not depend on the asset field:
the source merely casts `paymentRequirements.asset` without validating it. -/
theorem resolveMeta_asset_error_indep (env : Env) (p : PaymentPayload)
    (r : PaymentRequirements) (a : String) (e : ChainError) :
    (resolveMeta env p { r with asset := a }).1 = Except.error e ↔
      (resolveMeta env p r).1 = Except.error e := by
  rcases r with ⟨rs, rn, ras, rp, rm, re⟩
  unfold resolveMeta
  dsimp only
  repeat' split
  all_goals simp_all

/-- C5 counterexample: a malformed `requirements.asset` is not rejected with
`invalid_network` at the resolution step. It flows into the later signature
check: when the signature primitive throws on the malformed verifying
contract, `verify` throws (the exception escapes); and when the primitive
tolerates it, `verify` even accepts the payload outright. -/
theorem verify_malformed_asset_counterexample :
    ((verify strictSigEnv pW rBadAsset).1 = Except.error ChainError.ex
      ∧ Event.verifySig ∈ (verify strictSigEnv pW rBadAsset).2)
    ∧ (verify goodEnv pW rBadAsset).1 =
        Except.ok { isValid := true, invalidReason := none, payer := "0xpayer" } :=
  ⟨⟨rfl, by decide⟩, rfl⟩

/-- C5 amended: when both schemes match, any exception inside the resolution
block — unknown network, missing chain config, or metadata-resolver
failure — is caught and mapped to `invalid_network`; but a malformed
`requirements.asset` is not detected there: whether resolution fails is
independent of the asset string, which is merely cast and passed on. -/
theorem verify_resolution_failure_network (env : Env) (p : PaymentPayload)
    (r : PaymentRequirements) (hp : p.scheme = SCHEME) (hr : r.scheme = SCHEME) :
    (∀ e, (resolveMeta env p r).1 = Except.error e →
        (verify env p r).1 =
          Except.ok { isValid := false, invalidReason := some "invalid_network",
                      payer := p.payload.authorization.from_ })
    ∧ (∀ a e, (resolveMeta env p { r with asset := a }).1 = Except.error e ↔
        (resolveMeta env p r).1 = Except.error e) :=
  ⟨fun e he => (verify_resolveError env p r e hp hr he).1,
   fun a e => resolveMeta_asset_error_indep env p r a e⟩

/-- Witness for the amended C5 at a concrete unknown-network environment. -/
theorem verify_resolution_failure_network_witness :
    (verify badNetEnv pW rW).1 =
      Except.ok { isValid := false, invalidReason := some "invalid_network",
                  payer := "0xpayer" }
    ∧ ((resolveMeta badNetEnv pW { rW with asset := "zzz" }).1 = Except.error ChainError.ex ↔
        (resolveMeta badNetEnv pW rW).1 = Except.error ChainError.ex) :=
  ⟨(verify_resolution_failure_network badNetEnv pW rW rfl rfl).1 ChainError.ex rfl,
   (verify_resolution_failure_network badNetEnv pW rW rfl rfl).2 "zzz" ChainError.ex⟩

/-- C9 counterexample: exceptions from the Balance Oracle and from the Chain
Submitter are not caught: `verify` and `settle` propagate them to the
caller instead of returning a reject response with `unknown_error`. -/
theorem exception_propagates_counterexample :
    (verify balThrowEnv pW rW).1 = Except.error ChainError.ex
    ∧ (settle submitThrowEnv pW rW).1 = Except.error ChainError.ex :=
  ⟨rfl, rfl⟩

/-- C9 amended: the only exception-catching boundary inside the operations
is the resolution block, whose exceptions map to `invalid_network` (not
`unknown_error`); an exception thrown by the signature-verification
primitive — and likewise any later collaborator — propagates out of
`verify` unhandled. -/
theorem verify_exception_boundary (env : Env) (p : PaymentPayload)
    (r : PaymentRequirements) (hp : p.scheme = SCHEME) (hr : r.scheme = SCHEME) :
    (∀ e, (resolveMeta env p r).1 = Except.error e →
        (verify env p r).1 =
          Except.ok { isValid := false, invalidReason := some "invalid_network",
                      payer := p.payload.authorization.from_ })
    ∧ (∀ meta e, (resolveMeta env p r).1 = Except.ok meta →
        env.verifyTypedData p.payload.authorization.from_ (permitDomain meta)
            (permitMessage p) p.payload.signature = Except.error e →
        (verify env p r).1 = Except.error e) := by
  constructor
  · intro e he
    exact (verify_resolveError env p r e hp hr he).1
  · intro meta e hres hsig
    have hv := verify_resolveOk env p r meta hp hr hres
    rw [hv]
    dsimp only
    unfold verifyResolved
    rw [hsig]

/-- Witness for the amended C9: the resolution exception is caught while the
signature-primitive exception escapes, at concrete environments. -/
theorem verify_exception_boundary_witness :
    (verify badNetEnv pExpired rW).1 =
      Except.ok { isValid := false, invalidReason := some "invalid_network",
                  payer := "0xpayer" }
    ∧ (verify strictSigEnv pW rBadAsset).1 = Except.error ChainError.ex :=
  ⟨(verify_exception_boundary badNetEnv pExpired rW rfl rfl).1 ChainError.ex rfl,
   (verify_exception_boundary strictSigEnv pW rBadAsset rfl rfl).2
     { name := "USDC", chainId := 84532, erc20Address := "not-an-address", version := "2" }
     ChainError.ex rfl rfl⟩

/-- C10: the result of `verify` is entirely independent of
`requirements.network` — the field is never read — and consequently a
payload targeting a different network than the requirements demand can
still verify as valid. -/
theorem verify_ignores_requirements_network :
    (∀ (env : Env) (p : PaymentPayload) (r : PaymentRequirements) (n₁ n₂ : String),
        verify env p { r with network := n₁ } = verify env p { r with network := n₂ })
    ∧ ∃ (env : Env) (p : PaymentPayload) (r : PaymentRequirements),
        p.network ≠ r.network ∧
        (verify env p r).1 =
          Except.ok { isValid := true, invalidReason := none,
                      payer := p.payload.authorization.from_ } := by
  constructor
  · intro env p r n₁ n₂
    rcases r with ⟨rs, rn, ras, rp, rm, re⟩
    rfl
  · exact ⟨goodEnv, pW, rDiffNet, by decide, rfl⟩

/-- Witness for C2: at the concrete accepted run the Balance Oracle is
reached, so every pre-solvency check is established to have passed. -/
theorem verify_check_order_witness :
    Event.verifySig ∈ (verify goodEnv pW rW).2 ∧ preSolvencyOk goodEnv pW rW :=
  (verify_check_order goodEnv pW rW).2.2 (by decide)

/-- Witness for C10 at concrete distinct requirement networks. -/
theorem verify_ignores_requirements_network_witness :
    verify goodEnv pW { rW with network := "a" } =
      verify goodEnv pW { rW with network := "b" } :=
  verify_ignores_requirements_network.1 goodEnv pW rW "a" "b"

end X402
